import Mathlib

/-!
Shallow embedding of the SimpleFS (SFS) repository: the block-allocation
bitmap (`src/simplefs/src/alloc.rs`), the superblock codec
(`src/simplefs/src/sb.rs`), the inode table (`src/simplefs/src/node.rs`),
and the filesystem core (`src/simplefs/src/fs.rs`) with its file-backed
block device (`src/simplefs/src/emulator.rs`).

Machine integers are modelled as `Nat`; the only arithmetic performed on
stored words is bitwise (`|||`, `&&&`, shifts), which cannot overflow a
`u64` that starts in range, so no explicit `% 2^64` is needed.  Fallible
Rust code is modelled with `Option`/`Except`-style results; a Rust `panic!`
/ failed `assert!` / `unwrap()` on `None`/`Err` is modelled by a dedicated
result constructor (or `Option.none` for codec-level functions).
-/

set_option maxRecDepth 100000

namespace SimpleFS

/-- Allocation state of one bitmap bit (`alloc.rs`, `enum State`). -/
inductive AllocState where
  | Free
  | Used
deriving DecidableEq, Repr

/-- The 4096-byte allocation bitmap (`alloc.rs`, `struct Bitmap`): an array
of `BLOCK_SIZE / 8 = 512` `u64` words, modelled as a function from word
index to word value.  Only indices `0..512` are ever touched by the
operations below. -/
structure Bitmap where
  word : Nat → Nat

/-- Bitmap::new - all words zero. -/
def Bitmap.new : Bitmap := ⟨fun _ => 0⟩

/-- Bitmap::get.  The source asserts `blocknr < 4096 * 8 - 1` and then
extracts bit `blocknr % 64` of word `blocknr / 64`; the `match` arm for a
value other than 0 or 1 is `unreachable!()`.  A failed assert or the
unreachable arm is modelled as `none`. -/
def Bitmap.get (b : Bitmap) (i : Nat) : Option AllocState :=
  if i < 4096 * 8 - 1 then
    let outer := b.word (i / 64)
    let inner := i % 64
    let mask : Nat := 1 <<< inner
    match (outer &&& mask) >>> inner with
    | 0 => some AllocState.Free
    | 1 => some AllocState.Used
    | _ => none
  else none

/-- Core of Bitmap::set_reserved (the word update performed after the
bound assert): or the word with `1 <<< (i % 64)`. -/
def Bitmap.reserveCore (b : Bitmap) (i : Nat) : Bitmap :=
  ⟨Function.update b.word (i / 64) (b.word (i / 64) ||| (1 <<< (i % 64)))⟩

/-- Bitmap::set_reserved, including the `blocknr < 4096 * 8 - 1` assert
(`none` models the panic). -/
def Bitmap.set_reserved (b : Bitmap) (i : Nat) : Option Bitmap :=
  if i < 4096 * 8 - 1 then some (b.reserveCore i) else none

/-- Bitmap::set_free, including the bound assert.  The source computes
`mask = 0b00_u64 << inner_offset` (which is zero) and stores
`outer_offset & mask`, i.e. it zeroes the whole 64-bit word. -/
def Bitmap.set_free (b : Bitmap) (i : Nat) : Option Bitmap :=
  if i < 4096 * 8 - 1 then
    some ⟨Function.update b.word (i / 64) (b.word (i / 64) &&& (0 <<< (i % 64)))⟩
  else none

/-- Scan loop shared by both revisions of the free-list iterator
(`for i in marker..cap { if let State::Free = bitmap.get(i) ... }`):
first index `i ∈ [start, cap)` whose bit is `Free`.  A `Used` bit and the
(unreachable for `i < 32767`) panicking arms of `get` both continue the
scan, mirroring the `if let` which only matches `State::Free`. -/
def scanFreeAux (bm : Bitmap) : Nat → Nat → Option Nat
  | 0, _ => none
  | Nat.succ fuel, i =>
    match bm.get i with
    | some AllocState.Free => some i
    | _ => scanFreeAux bm fuel (i + 1)

/-- Entry point of the scan: examine indices `i, i+1, ..., cap - 1`
(the remaining iteration count `cap - i` drives the structural
recursion of `scanFreeAux`). -/
def scanFree (bm : Bitmap) (cap : Nat) (i : Nat) : Option Nat :=
  scanFreeAux bm (cap - i) i

/-- The free-index iterator of `alloc.rs` (`struct NextAvailableAllocation`):
a scan marker, a by-value copy of the bitmap, and a cap. -/
structure NextAvailableAllocation where
  marker : Nat
  bitmap : Bitmap
  cap : Nat

/-- NextAvailableAllocation::new (`alloc.rs`): marker 0, the given bitmap
(moved/copied in), cap defaulting to `BLOCK_SIZE / 8 = 512`. -/
def NextAvailableAllocation.new (bitmap : Bitmap) (cap : Option Nat) :
    NextAvailableAllocation :=
  { marker := 0, bitmap := bitmap, cap := cap.getD (4096 / 8) }

/-- Iterator::next for `alloc.rs`'s NextAvailableAllocation: scan from
`marker` to `cap` for a `Free` bit; on success increment `marker` by one
(`self.marker += 1`, not `= i + 1`) and yield the index.  State passing
makes the mutation explicit. -/
def NextAvailableAllocation.next (a : NextAvailableAllocation) :
    Option (Nat × NextAvailableAllocation) :=
  match scanFree a.bitmap a.cap a.marker with
  | some i => some (i, { a with marker := a.marker + 1 })
  | none => none

/-! ## Byte-level helpers shared by the codecs -/

/-- Big-endian `u32` of the first four bytes of a buffer
(`u32::from_be_bytes(buf[0..4])`). -/
def u32be (bs : List Nat) : Nat :=
  bs.getD 0 0 * 16777216 + bs.getD 1 0 * 65536 + bs.getD 2 0 * 256 + bs.getD 3 0

/-- Little-endian bytes of a `u16` value. -/
def le16 (n : Nat) : List Nat := [n % 256, n / 256 % 256]

/-- Little-endian bytes of a `u32` value. -/
def le32 (n : Nat) : List Nat :=
  [n % 256, n / 256 % 256, n / 65536 % 256, n / 16777216 % 256]

/-- A `copy_from_slice` into `buf[start .. start + bytes.length]` (callers
establish that the range is inside `buf`). -/
def spliceBytes (buf : List Nat) (start : Nat) (bytes : List Nat) : List Nat :=
  buf.take start ++ bytes ++ buf.drop (start + bytes.length)

/-- Serialized form of a `Bitmap` (`alloc.rs` derives zerocopy `AsBytes`,
so the disk bytes are the 512 words in order, each little-endian):
byte `k` is byte `k % 8` of word `k / 8`. -/
def bitmapBytes (b : Bitmap) : List Nat :=
  (List.range 4096).map (fun k => b.word (k / 8) >>> (k % 8 * 8) % 256)

/-! ## SuperBlock codec (`src/simplefs/src/sb.rs`) -/

/-- The superblock record of `sb.rs` (six `u32` fields). -/
structure SuperBlock where
  sb_magic : Nat
  inodes_count : Nat
  blocks_count : Nat
  reserved_blocks_count : Nat
  free_blocks_count : Nat
  free_inodes_count : Nat
deriving DecidableEq, Repr

/-- SuperBlock::new (`sb.rs`): magic `0x53465342`, all counters zero. -/
def SuperBlock.new : SuperBlock :=
  { sb_magic := 0x53465342, inodes_count := 0, blocks_count := 0,
    reserved_blocks_count := 0, free_blocks_count := 0, free_inodes_count := 0 }

/-- SuperBlock::parse (`sb.rs`): asserts the buffer is exactly one block
long, reads the big-endian magic and asserts it equals `0x53465342`, then
reads the five remaining big-endian counters.  Either failed `assert_eq!`
is a panic, modelled as `none`. -/
def SuperBlock.parse (buf : List Nat) : Option SuperBlock :=
  if buf.length = 4096 then
    let read_magic := u32be buf
    if read_magic = SuperBlock.new.sb_magic then
      some { sb_magic := read_magic,
             inodes_count := u32be (buf.drop 4),
             blocks_count := u32be (buf.drop 8),
             reserved_blocks_count := u32be (buf.drop 12),
             free_blocks_count := u32be (buf.drop 16),
             free_inodes_count := u32be (buf.drop 20) }
    else none
  else none

/-! ## Block storage (`src/simplefs/src/emulator.rs`) -/

/-- A block device: block index and byte offset to stored byte.  The
file-backed emulator zeroes the medium on build, so a fresh device is
`fun _ _ => 0`. -/
def Disk : Type := Nat → Nat → Nat

/-- FileBlockEmulator::read_block: fails when `blocknr > block_count - 1`,
otherwise yields the 4096 bytes of the block.  (The `BufferTooSmall` check
never fires in the embedded call sites, which always pass 4096-byte
buffers.) -/
def readBlock (d : Disk) (nblocks : Nat) (n : Nat) : Option (List Nat) :=
  if n < nblocks then some ((List.range 4096).map (d n)) else none

/-- FileBlockEmulator::write_block: fails when out of range, otherwise
writes `min 4096 buf.length` bytes at the start of block `n`, leaving the
remaining bytes of the block untouched.  A byte at offset
`o < min 4096 buf.length` becomes `buf[o]`; every other byte keeps its
previous value, which is exactly what `buf.getD o (d b o)` yields for
`o < 4096`. -/
def writeBlock (d : Disk) (nblocks : Nat) (n : Nat) (buf : List Nat) :
    Option Disk :=
  if n < nblocks then
    some (fun b o => if b = n ∧ o < 4096 then buf.getD o (d b o) else d b o)
  else none

/-! ## Inode records (`src/simplefs/src/node.rs`) -/

/-- The 256-byte inode record (`node.rs`, `struct Inode`).  The 43-word
reserved padding is identically zero and is reinstated by
`inodeBytes`. -/
structure Inode where
  mode : Nat
  uid : Nat
  gid : Nat
  links_count : Nat
  size : Nat
  create_time : Nat
  update_time : Nat
  access_time : Nat
  blocks : List Nat
deriving DecidableEq, Repr

/-- Inode::root (`node.rs`): a directory inode (mode `0x4000`), no data
blocks. -/
def Inode.root : Inode :=
  { mode := 0x4000, uid := 0, gid := 0, links_count := 0, size := 0,
    create_time := 0, update_time := 0, access_time := 0,
    blocks := List.replicate 15 0 }

/-- Inode::default (`node.rs`): a regular-file inode (mode `0x2000`), no
data blocks. -/
def Inode.fileDefault : Inode :=
  { mode := 0x2000, uid := 0, gid := 0, links_count := 0, size := 0,
    create_time := 0, update_time := 0, access_time := 0,
    blocks := List.replicate 15 0 }

/-- The 256-byte packed little-endian layout of an inode (zerocopy
`AsBytes` on the `#[repr(C)]` struct): four `u16`, four `u32`, 43 padding
words, then the 15 block pointers. -/
def inodeBytes (nd : Inode) : List Nat :=
  le16 nd.mode ++ le16 nd.uid ++ le16 nd.gid ++ le16 nd.links_count ++
  le32 nd.size ++ le32 nd.create_time ++ le32 nd.update_time ++
  le32 nd.access_time ++ List.replicate 172 0 ++ (nd.blocks.map le32).flatten

/-- The in-memory inode table of `node.rs` (`InodeGroup`), restricted to
the state its `serialize_block` consults: the `BTreeMap<u32, Inode>` of
present inodes (the owned block store and allocation tracker play no part
in serialization). -/
structure NodeRsGroup where
  nodes : Nat → Option Inode

/-- InodeGroup::serialize_block (`node.rs`): into a zeroed 4096-byte
buffer, copy each present inode with inumber in
`nodes.range(disk_block * NODES_PER_BLOCK .. NODES_PER_BLOCK)` to offset
`inumber * NODE_SIZE`.  The range end is the constant
`NODES_PER_BLOCK = 16`, not `offset + 16`; `BTreeMap::range` panics when
the start exceeds the end (`none` models that panic), and yields nothing
when `disk_block = 1` makes the range `16..16`. -/
def NodeRs.serialize_block (g : NodeRsGroup) (disk_block : Nat) :
    Option (List Nat) :=
  let offset := disk_block * 16
  if 16 < offset then none
  else
    some ((List.range 16).foldl
      (fun buf i =>
        if offset ≤ i then
          match g.nodes i with
          | some nd => spliceBytes buf (i * 256) (inodeBytes nd)
          | none => buf
        else buf)
      (List.replicate 4096 0))

/-! ## Errors and outcomes of the filesystem core (`src/simplefs/src/fs.rs`) -/

/-- The error enumeration of `fs.rs` (`enum SFSError`).  The
`std::io::Error` payload of `InvalidBlock` is not tracked. -/
inductive SFSError where
  | InvalidArgument : String → SFSError
  | DoesNotExist : SFSError
  | InvalidBlock : SFSError
deriving DecidableEq, Repr

/-- Outcome of a fallible, possibly panicking operation: a Rust panic
(`unwrap()` failure, failed assert, `unimplemented!()`), an `Err` returned
to the caller, or a normal return. -/
inductive RResult (α : Type) where
  | panicked : RResult α
  | failed : SFSError → RResult α
  | ok : α → RResult α
deriving DecidableEq, Repr

/-! ## Directory payload parsing (`fs.rs`, `read_dir`)

`read_dir` does `String::from_utf8(content).unwrap()`, iterates
`str::lines()`, and for each line takes `split(':')`, unwrapping the parse
of the first fragment as `u32` and the presence of a second fragment. -/

/-- Internal check of the standard UTF-8 byte automaton (exactly the
acceptor used by `String::from_utf8`): ASCII, 2-byte `C2..DF`, 3-byte
`E0/E1-EC/ED/EE-EF` with their continuation ranges, 4-byte `F0/F1-F3/F4`. -/
def validUtf8 : List Nat → Bool
  | [] => true
  | b :: rest =>
    if b < 128 then validUtf8 rest
    else if b < 194 then false
    else if b ≤ 223 then
      match rest with
      | c :: r => decide (128 ≤ c ∧ c ≤ 191) && validUtf8 r
      | [] => false
    else if b ≤ 239 then
      match rest with
      | c :: d :: r =>
        (if b = 224 then decide (160 ≤ c ∧ c ≤ 191)
         else if b = 237 then decide (128 ≤ c ∧ c ≤ 159)
         else decide (128 ≤ c ∧ c ≤ 191)) &&
        decide (128 ≤ d ∧ d ≤ 191) && validUtf8 r
      | _ => false
    else if b ≤ 244 then
      match rest with
      | c :: d :: e :: r =>
        (if b = 240 then decide (144 ≤ c ∧ c ≤ 191)
         else if b = 244 then decide (128 ≤ c ∧ c ≤ 143)
         else decide (128 ≤ c ∧ c ≤ 191)) &&
        decide (128 ≤ d ∧ d ≤ 191) && decide (128 ≤ e ∧ e ≤ 191) && validUtf8 r
      | _ => false
    else false

/-- Split a byte list at every occurrence of `sep` (the fragments of
`str::split`): always at least one fragment, possibly empty. -/
def splitOnByte (sep : Nat) : List Nat → List (List Nat)
  | [] => [[]]
  | b :: rest =>
    if b = sep then [] :: splitOnByte sep rest
    else
      match splitOnByte sep rest with
      | f :: fs => (b :: f) :: fs
      | [] => [[b]]

/-- Strip one trailing carriage return, as `str::lines` does per line. -/
def stripCR (l : List Nat) : List Nat :=
  if l.getLast? = some 13 then l.dropLast else l

/-- The lines of `str::lines`: split on `\n` as a terminator (a trailing
empty fragment is dropped), stripping one trailing `\r` per line. -/
def linesOf (bs : List Nat) : List (List Nat) :=
  let frags := splitOnByte 10 bs
  (if frags.getLast? = some [] then frags.dropLast else frags).map stripCR

/-- Rust's `str::parse::<u32>` (`u32::from_str`): an optional leading `+`,
then one or more decimal digits, rejecting values above `u32::MAX`. -/
def parseU32 (bs : List Nat) : Option Nat :=
  let ds := match bs with
    | 43 :: rest => rest
    | _ => bs
  if ds ≠ [] ∧ ds.all (fun c => decide (48 ≤ c ∧ c ≤ 57)) then
    let v := ds.foldl (fun a c => a * 10 + (c - 48)) 0
    if v < 4294967296 then some v else none
  else none

/-- The second fragment of `line.split(':')`: the bytes after the first
colon up to the next colon.  Only meaningful when the line contains a
colon (`read_dir` unwraps its presence). -/
def colonName (l : List Nat) : List Nat :=
  ((l.dropWhile (fun c => c != 58)).drop 1).takeWhile (fun c => c != 58)

/-- HashMap::insert keyed by entry name: any previous binding of the name
is replaced (duplicate names, last occurrence wins). -/
def dirInsert (acc : List (List Nat × Nat)) (name : List Nat) (v : Nat) :
    List (List Nat × Nat) :=
  acc.filter (fun e => e.1 != name) ++ [(name, v)]

/-- HashMap::get keyed by entry name. -/
def dirLookup (acc : List (List Nat × Nat)) (name : List Nat) : Option Nat :=
  (acc.find? (fun e => e.1 == name)).map (fun e => e.2)

/-- The per-line loop of `read_dir` (`fs.rs` lines 279-284): parse the
text before the first `:` as `u32` (`unwrap` panics on failure), unwrap
the presence of a fragment after the `:` (panics when the line has no
colon), and insert into the map. -/
def parseDirLines : List (List Nat) → List (List Nat × Nat) →
    RResult (List (List Nat × Nat))
  | [], acc => .ok acc
  | l :: rest, acc =>
    match parseU32 (l.takeWhile (fun c => c != 58)) with
    | none => .panicked
    | some v =>
      if l.contains 58 then parseDirLines rest (dirInsert acc (colonName l) v)
      else .panicked

/-- The parsing stage of `read_dir` (`fs.rs` lines 276-286): unwrap UTF-8
validity of the payload, then run the per-line loop over `lines()`. -/
def parse_dir_content (content : List Nat) : RResult (List (List Nat × Nat)) :=
  if validUtf8 content then parseDirLines (linesOf content) [] else .panicked

/-! ## The filesystem core (`src/simplefs/src/fs.rs`)

`fs.rs` compiles against an `InodeGroup` revision (constructors
`new(bitmap)` / `open(bitmap)`, methods `new_file`, `get`, `get_mut`,
`allocations`, `load_block(offset, buf)`, `serialize_block`) and a
`SuperBlock` revision (seven `u32` fields including `free_list`,
28-byte little-endian serialization, `parse(buf, magic)`) that are not
present under `src/`; `node.rs` and `sb.rs` hold incompatible revisions.
Those two collaborators are modelled from the spec (§3, §4.3, §6) below;
everything else in this section is translated from `fs.rs` itself. -/

/-- Modelled from the spec: the seven-field `SuperBlock` revision used by
`fs.rs` (spec §3), missing from `src/`.  Fields in declaration order;
`free_list` is the next-free-block hint. -/
structure FsSuperBlock where
  sb_magic : Nat
  inodes_count : Nat
  blocks_count : Nat
  reserved_blocks_count : Nat
  free_blocks_count : Nat
  free_inodes_count : Nat
  free_list : Nat
deriving DecidableEq, Repr

/-- SuperBlock::default (`fs.rs` lines 60-75): magic `0x53465342`,
`inodes_count = 5 * (4096 / 256) = 80`, `blocks_count = 56`, 80 free
inodes, all other counters zero. -/
def FsSuperBlock.default : FsSuperBlock :=
  { sb_magic := 0x53465342, inodes_count := 5 * (4096 / 256),
    blocks_count := 56, reserved_blocks_count := 0, free_blocks_count := 0,
    free_inodes_count := 5 * (4096 / 256), free_list := 0 }

/-- Modelled from the spec: serialization of the seven-field superblock
(spec §6, block 0 bytes 0..28) - magic then the six counters, each
little-endian.  `fs.rs` copies exactly these 28 bytes into the head of a
zeroed block buffer. -/
def FsSuperBlock.serialize (sb : FsSuperBlock) : List Nat :=
  le32 sb.sb_magic ++ le32 sb.inodes_count ++ le32 sb.blocks_count ++
  le32 sb.reserved_blocks_count ++ le32 sb.free_blocks_count ++
  le32 sb.free_inodes_count ++ le32 sb.free_list

/-- Modelled from the spec: the `InodeGroup` revision used by `fs.rs`
(spec §4.3), missing from `src/`: an ordered map from inumber to inode
plus the inode allocation bitmap. -/
structure FsInodeGroup where
  nodes : Nat → Option Inode
  alloc : Bitmap

/-- Modelled from the spec: InodeGroup::new (spec §4.3) - seed the map
with the root inode at inumber 0 and mark bit 0 reserved. -/
def FsInodeGroup.new : FsInodeGroup :=
  ⟨fun i => if i = 0 then some Inode.root else none, Bitmap.new.reserveCore 0⟩

/-- Modelled from the spec: InodeGroup::new_file (spec §4.3) - lowest
index in `[0, 80)` free in the allocation bitmap; insert a default
regular-file inode there, reserve the bit, return the index.  `none`
models the abort when no slot is free. -/
def FsInodeGroup.new_file (g : FsInodeGroup) : Option (Nat × FsInodeGroup) :=
  match scanFree g.alloc 80 0 with
  | none => none
  | some i =>
    some (i, ⟨Function.update g.nodes i (some Inode.fileDefault),
              g.alloc.reserveCore i⟩)

/-- Modelled from the spec: InodeGroup::serialize_block (spec §4.3) -
copy every present inode with inumber in
`[disk_offset * 16, (disk_offset + 1) * 16)` into its 256-byte slot of a
zeroed block. -/
def FsInodeGroup.serialize_block (g : FsInodeGroup) (disk_offset : Nat) :
    List Nat :=
  (List.range 16).foldl
    (fun buf k =>
      match g.nodes (disk_offset * 16 + k) with
      | some nd => spliceBytes buf (k * 256) (inodeBytes nd)
      | none => buf)
    (List.replicate 4096 0)

/-- The mounted filesystem state of `fs.rs` (`struct SFS`): the device
(disk contents plus its block count), superblock, data-region bitmap and
inode group. -/
structure SFSState where
  disk : Disk
  nblocks : Nat
  super_block : FsSuperBlock
  data_map : Bitmap
  inodes : FsInodeGroup

/-- SFS::create (`fs.rs` lines 112-139): write the default superblock
(28 bytes at the head of a zeroed buffer) to block 0, a zeroed data
bitmap to block 1, the new inode group's bitmap to block 2 and its first
serialized block to block 3; `sync_disk` has no observable effect on the
model.  Any device error propagates with `?` as `InvalidBlock`. -/
def SFS.create (d : Disk) (nblocks : Nat) : RResult SFSState :=
  let super_block := FsSuperBlock.default
  match writeBlock d nblocks 0
      (super_block.serialize ++ List.replicate 4068 0) with
  | none => .failed .InvalidBlock
  | some d1 =>
    let data_map := Bitmap.new
    match writeBlock d1 nblocks 1 (bitmapBytes data_map) with
    | none => .failed .InvalidBlock
    | some d2 =>
      let inodes := FsInodeGroup.new
      match writeBlock d2 nblocks 2 (bitmapBytes inodes.alloc) with
      | none => .failed .InvalidBlock
      | some d3 =>
        match writeBlock d3 nblocks 3 (inodes.serialize_block 0) with
        | none => .failed .InvalidBlock
        | some d4 =>
          .ok { disk := d4, nblocks := nblocks, super_block := super_block,
                data_map := data_map, inodes := inodes }

/-- The pointers `write_dir` (`fs.rs` lines 216-221) treats as the
blocks already owned by an inode: those with value strictly greater
than 8 (`*block > &8_u32`), in array order. -/
def ownedBlocksWriteDir (node : Inode) : List Nat :=
  node.blocks.filter (fun b => 8 < b)

/-- The pointers `read_file` (`fs.rs` lines 294-300) treats as the blocks
owned by an inode: those with value strictly greater than
`super_block.inodes_count + 3` (= 83 for the default superblock), in
array order. -/
def ownedBlocksReadFile (sb : FsSuperBlock) (node : Inode) : List Nat :=
  node.blocks.filter (fun b => sb.inodes_count + 3 < b)

/-- The owned-block set as the spec words it (for comparison with the two
source-side definitions above): the pointers with value at least 8, the
first data-region block, in array order. -/
def ownedBlocksSpec (node : Inode) : List Nat :=
  node.blocks.filter (fun b => 8 ≤ b)

/-- The inner loop of `read_file` (`fs.rs` lines 303-308): for the `i`-th
owned block, slice `content[i*4096 .. i*4096+4096]` (a panic when the
buffer is shorter than the slice end) and read the device block into it
(`?` propagates a device fault as `InvalidBlock`). -/
def readLoop (d : Disk) (nblocks : Nat) :
    List Nat → List Nat → Nat → RResult (List Nat)
  | [], content, _ => .ok content
  | b :: rest, content, i =>
    if content.length < i * 4096 + 4096 then .panicked
    else
      match readBlock d nblocks b with
      | none => .failed .InvalidBlock
      | some bytes =>
        readLoop d nblocks rest (spliceBytes content (i * 4096) bytes) (i + 1)

/-- SFS::read_file (`fs.rs` lines 289-310): `DoesNotExist` when the
inumber has no inode; otherwise gather the pointers with value strictly
greater than `super_block.inodes_count + 3`, allocate a buffer of
`allocated_blocks.len()` bytes (not `len * 4096`), and run the read
loop over it. -/
def read_file (s : SFSState) (inum : Nat) : RResult (List Nat) :=
  match s.inodes.nodes inum with
  | none => .failed .DoesNotExist
  | some node =>
    let allocated_blocks := ownedBlocksReadFile s.super_block node
    readLoop s.disk s.nblocks allocated_blocks
      (List.replicate allocated_blocks.length 0) 0

/-- SFS::read_dir (`fs.rs` lines 274-287): read the file payload and run
the parsing stage over it. -/
def read_dir (s : SFSState) (inum : Nat) : RResult (List (List Nat × Nat)) :=
  match read_file s inum with
  | .panicked => .panicked
  | .failed e => .failed e
  | .ok content => parse_dir_content content

/-- Decimal ASCII rendering of an inumber (`format!("{}", v)`). -/
def decimalBytes (n : Nat) : List Nat := (Nat.toDigits 10 n).map Char.toNat

/-- The directory payload built by `write_dir` (`fs.rs` lines 209-213):
each entry as `<inum>:<name>\n`, concatenated, then one terminating
`'\0'`. -/
def dirContentsBytes (entries : List (List Nat × Nat)) : List Nat :=
  (entries.map (fun e => decimalBytes e.2 ++ [58] ++ e.1 ++ [10])).flatten ++ [0]

/-- The sequence of yields of `fs.rs`'s own private
`NextAvailableAllocation` (lines 33-58; cap hard-wired to
`BLOCK_SIZE / 8 = 512`, marker incremented by one per yield, bitmap a
by-value snapshot): `(0..k).map(|_| gen.next().unwrap())`.  `none` models
the `unwrap` panic when the iterator is exhausted. -/
def allocRun (bm : Bitmap) (k : Nat) (marker : Nat) : Option (List Nat) :=
  match k with
  | 0 => some []
  | Nat.succ k2 =>
    match scanFree bm 512 marker with
    | none => none
    | some i => (allocRun bm k2 (marker + 1)).map (fun l => i :: l)

/-- The reservation loop of `write_dir` (`for &new_block in new_blocks
{ data_map.set_reserved(new_block) }`); `none` models a bound-assert
panic. -/
def reserveAll (bm : Bitmap) : List Nat → Option Bitmap
  | [] => some bm
  | b :: rest =>
    match bm.set_reserved b with
    | none => none
    | some bm2 => reserveAll bm2 rest

/-- Structural worker for `chunks4096`: the fuel bounds the number of
chunks (each step consumes at least one byte, so `l.length` suffices). -/
def chunks4096Aux : Nat → List Nat → List (List Nat)
  | 0, _ => []
  | Nat.succ fuel, l =>
    if l = [] then [] else l.take 4096 :: chunks4096Aux fuel (l.drop 4096)

/-- chunks_mut(BLOCK_SIZE) over the payload: consecutive 4096-byte
pieces, the last possibly shorter. -/
def chunks4096 (l : List Nat) : List (List Nat) :=
  chunks4096Aux l.length l

/-- The chunk-writing loop of `write_dir`: each chunk goes to the next
element of the block iterator; `unwrap` panics (modelled `none`) when the
iterator is exhausted or the device write fails. -/
def writeChunks (nblocks : Nat) :
    Disk → List (List Nat) → List Nat → Option Disk
  | d, [], _ => some d
  | _, _ :: _, [] => none
  | d, c :: cs, b :: bs =>
    match writeBlock d nblocks b c with
    | none => none
    | some d2 => writeChunks nblocks d2 cs bs

/-- SFS::write_dir (`fs.rs` lines 208-272): serialize the entries, unwrap
the directory's inode, gather the pointers with value strictly greater
than 8, and if fewer than `1 + len/4096` blocks are owned, draw the
shortfall from a `NextAvailableAllocation` over a by-value copy of the
data bitmap, reserve the yields, store the first 15 of
`allocated ++ new` into the inode's pointer array (a panic when more
than 15), and write the payload chunks to the combined block list;
otherwise write the chunks to the already-owned blocks. -/
def write_dir (s : SFSState) (dir : Nat) (entries : List (List Nat × Nat)) :
    RResult SFSState :=
  let contents := dirContentsBytes entries
  match s.inodes.nodes dir with
  | none => .panicked
  | some node =>
    let allocated_blocks := ownedBlocksWriteDir node
    let needed := 1 + contents.length / 4096
    if allocated_blocks.length < needed then
      match allocRun s.data_map (needed - allocated_blocks.length) 0 with
      | none => .panicked
      | some new_blocks =>
        match reserveAll s.data_map new_blocks with
        | none => .panicked
        | some data_map2 =>
          let all_blocks := allocated_blocks ++ new_blocks
          if 15 < all_blocks.length then .panicked
          else
            let node2 := { node with
              blocks := all_blocks ++ List.replicate (15 - all_blocks.length) 0 }
            let inodes2 : FsInodeGroup :=
              ⟨Function.update s.inodes.nodes dir (some node2), s.inodes.alloc⟩
            match writeChunks s.nblocks s.disk (chunks4096 contents) all_blocks with
            | none => .panicked
            | some disk2 =>
              .ok { s with disk := disk2, data_map := data_map2,
                           inodes := inodes2 }
    else
      match writeChunks s.nblocks s.disk (chunks4096 contents) allocated_blocks with
      | none => .panicked
      | some disk2 => .ok { s with disk := disk2 }

/-- The open modes of `fs.rs` (`enum OpenMode`). -/
inductive OpenMode where
  | RO
  | WO
  | RW
  | DIRECTORY
  | CREATE
deriving DecidableEq, Repr

/-- The component loop of `open_file` (`fs.rs` lines 183-204): read the
directory at the current inumber; a component present in it reaches the
`unimplemented!()` (a panic) -- descent is not implemented; a missing
component under `CREATE` allocates an inode via `new_file`, inserts the
entry, writes the parent back and returns the new inumber irrespective of
the remaining components; a missing component under any other mode fails
`DoesNotExist`. -/
def openLoop (s : SFSState) (inum : Nat) (mode : OpenMode) :
    List (List Nat) → RResult (Nat × SFSState)
  | [] => .ok (inum, s)
  | part :: _rest =>
    match read_dir s inum with
    | .panicked => .panicked
    | .failed e => .failed e
    | .ok content =>
      match dirLookup content part with
      | none =>
        match mode with
        | .CREATE =>
          match s.inodes.new_file with
          | none => .panicked
          | some (created_file, inodes2) =>
            let content2 := dirInsert content part created_file
            match write_dir { s with inodes := inodes2 } inum content2 with
            | .ok s2 => .ok (created_file, s2)
            | .panicked => .panicked
            | .failed e => .failed e
        | _ => .failed .DoesNotExist
      | some _ => .panicked

/-- SFS::open_file (`fs.rs` lines 174-206): an `InvalidArgument` unless
the path begins with the root component; otherwise walk the components
from the root inumber 0.  `Path::components` of an absolute path yields
`RootDir` followed by the normal components, so a path is modelled as an
is-absolute flag plus its component names (as byte strings). -/
def open_file (s : SFSState) (isAbsolute : Bool) (parts : List (List Nat))
    (mode : OpenMode) : RResult (Nat × SFSState) :=
  if isAbsolute then openLoop s 0 mode parts
  else .failed (.InvalidArgument "path must start with \"/\"")

/-- Bitmap::parse (`alloc.rs`): reinterpret 4096 buffer bytes as the 512
little-endian `u64` words (the on-disk layout is the in-memory layout). -/
def bitmapParse (buf : List Nat) : Bitmap :=
  ⟨fun j => (List.range 8).foldl (fun a k => a + buf.getD (j * 8 + k) 0 * 256 ^ k) 0⟩

/-- Little-endian `u16` at an offset of a buffer. -/
def u16leAt (buf : List Nat) (off : Nat) : Nat :=
  buf.getD off 0 + buf.getD (off + 1) 0 * 256

/-- Little-endian `u32` at an offset of a buffer. -/
def u32leAt (buf : List Nat) (off : Nat) : Nat :=
  buf.getD off 0 + buf.getD (off + 1) 0 * 256 +
  buf.getD (off + 2) 0 * 65536 + buf.getD (off + 3) 0 * 16777216

/-- Inode::parse of a 256-byte slot: the packed little-endian layout of
`inodeBytes` read back (blocks array at offset 196). -/
def inodeParse (buf : List Nat) : Inode :=
  { mode := u16leAt buf 0, uid := u16leAt buf 2, gid := u16leAt buf 4,
    links_count := u16leAt buf 6, size := u32leAt buf 8,
    create_time := u32leAt buf 12, update_time := u32leAt buf 16,
    access_time := u32leAt buf 20,
    blocks := (List.range 15).map (fun k => u32leAt buf (196 + 4 * k)) }

/-- Modelled from the spec: InodeGroup::load_block (spec §4.3) of the
missing revision - for each inumber in the block whose bit is set in the
allocation bitmap, parse the 256-byte slice at `(i mod 16) * 256` and
insert it. -/
def FsInodeGroup.load_block (g : FsInodeGroup) (disk_offset : Nat)
    (buf : List Nat) : FsInodeGroup :=
  ⟨fun i =>
    if disk_offset * 16 ≤ i ∧ i < disk_offset * 16 + 16 ∧
        g.alloc.get i = some AllocState.Used then
      some (inodeParse ((buf.drop (i % 16 * 256)).take 256))
    else g.nodes i,
   g.alloc⟩

/-- The mount loop of `SFS::open` (`fs.rs` lines 155-161): read blocks
3..8 and load each into the group built by `InodeGroup::open` (an empty
map carrying the parsed inode bitmap). -/
def loadAllInodeBlocks (d : Disk) (nblocks : Nat) (inode_allocs : Bitmap) :
    Option FsInodeGroup :=
  (List.range 5).foldl
    (fun acc k =>
      match acc with
      | none => none
      | some g =>
        match readBlock d nblocks (3 + k) with
        | none => none
        | some buf => some (g.load_block k buf))
    (some ⟨fun _ => none, inode_allocs⟩)

/-- SFS::open (`fs.rs` lines 141-169) composed with the
`SuperBlock::parse` of `sb.rs` (whose magic check is an `assert_eq!`, a
panic): read block 0 and parse it, read the data and inode bitmaps from
blocks 1 and 2, then load the five inode-table blocks.  The inode-table
loading (`InodeGroup::open` / `load_block`) belongs to the missing
revision and is modelled from the spec (§4.2, §4.4.2); device faults
propagate as `InvalidBlock`. -/
def SFS.open (d : Disk) (nblocks : Nat) :
    RResult (SuperBlock × Bitmap × FsInodeGroup) :=
  match readBlock d nblocks 0 with
  | none => .failed .InvalidBlock
  | some buf0 =>
    match SuperBlock.parse buf0 with
    | none => .panicked
    | some sb =>
      match readBlock d nblocks 1 with
      | none => .failed .InvalidBlock
      | some buf1 =>
        let data_map := bitmapParse buf1
        match readBlock d nblocks 2 with
        | none => .failed .InvalidBlock
        | some buf2 =>
          let inode_allocs := bitmapParse buf2
          match loadAllInodeBlocks d nblocks inode_allocs with
          | none => .failed .InvalidBlock
          | some g => .ok (sb, data_map, g)

/-! ## Concrete traces -/

/-- A freshly cleared 64-block device (the builder zeroes the medium). -/
def zeroDisk : Disk := fun _ _ => 0

/-- The inumber of a successful `open_file` call. -/
def RResult.inumOf : RResult (Nat × SFSState) → Option Nat
  | .ok (n, _) => some n
  | _ => none

/-- Normal-return check. -/
def RResult.isOk {α : Type} : RResult α → Bool
  | .ok _ => true
  | _ => false

/-- The error of a failed call, when the call failed. -/
def RResult.errOf {α : Type} : RResult α → Option SFSError
  | .failed e => some e
  | _ => none

/-- The filesystem state produced by `SFS::create` on a fresh 64-block
device (`create` succeeds there; the fallback arm is inert). -/
def fsAfterCreate : SFSState :=
  match SFS.create zeroDisk 64 with
  | .ok s => s
  | _ => { disk := zeroDisk, nblocks := 64, super_block := FsSuperBlock.default,
           data_map := Bitmap.new, inodes := FsInodeGroup.new }

/-- The bytes of the path component `foo`. -/
def fooBytes : List Nat := [102, 111, 111]

/-- The state after `open_file("/foo", CREATE)` on the fresh filesystem
(the call succeeds; the fallback arm is inert). -/
def fsAfterFoo : SFSState :=
  match open_file fsAfterCreate true [fooBytes] .CREATE with
  | .ok (_, s) => s
  | _ => fsAfterCreate

/-- The state after `open_file("/a/b", CREATE)` on the fresh filesystem
(components `a` = byte 97 and `b` = byte 98; the call succeeds and the
fallback arm is inert). -/
def fsAfterAB : SFSState :=
  match open_file fsAfterCreate true [[97], [98]] .CREATE with
  | .ok (_, s) => s
  | _ => fsAfterCreate

/-- An inode whose first block pointer is exactly 8, the first data-region
block (all other pointers unallocated). -/
def inode8 : Inode :=
  { Inode.fileDefault with blocks := 8 :: List.replicate 14 0 }

/-- The fresh filesystem with `inode8` present at inumber 1. -/
def fsWithInode8 : SFSState :=
  { fsAfterCreate with
    inodes := ⟨Function.update fsAfterCreate.inodes.nodes 1 (some inode8),
               fsAfterCreate.inodes.alloc⟩ }

/-- A bitmap whose bits 0 and 1 are reserved (word 0 = 3). -/
def bmTwoUsed : Bitmap := (Bitmap.new.reserveCore 0).reserveCore 1

/-- An inode table holding the root inode at inumber 0 and a default
regular-file inode at inumber 16 (the first inumber of the second
inode-table block). -/
def nodeRsPair : NodeRsGroup :=
  ⟨fun i => if i = 0 then some Inode.root
    else if i = 16 then some Inode.fileDefault else none⟩

/-! ## Helper lemmas -/

/-- A successful scan yields an index at or after the start, before the
end of the scanned range, whose bit is `Free`. -/
theorem scanFreeAux_spec (bm : Bitmap) :
    ∀ (fuel i j : Nat), scanFreeAux bm fuel i = some j →
      i ≤ j ∧ j < i + fuel ∧ bm.get j = some AllocState.Free := by
  intro fuel
  induction fuel with
  | zero => intro i j h; simp [scanFreeAux] at h
  | succ n ih =>
    intro i j h
    simp only [scanFreeAux] at h
    split at h
    · rename_i heq
      cases h
      exact ⟨Nat.le_refl _, by omega, heq⟩
    · have h2 := ih (i + 1) j h
      exact ⟨by omega, by omega, h2.2.2⟩

/-- A successful scan from `m` below `cap` yields `j ∈ [m, cap)` with a
`Free` bit. -/
theorem scanFree_spec (bm : Bitmap) (cap m j : Nat)
    (h : scanFree bm cap m = some j) :
    m ≤ j ∧ j < cap ∧ bm.get j = some AllocState.Free := by
  have h2 := scanFreeAux_spec bm (cap - m) m j h
  rcases h2 with ⟨h3, h4, h5⟩
  refine ⟨h3, ?_, h5⟩
  by_cases hm : m < cap
  · omega
  · have hz : cap - m = 0 := by omega
    rw [scanFree, hz] at h
    simp [scanFreeAux] at h

/-- An element of a mapped range below its length. -/
theorem getD_map_range (f : Nat → Nat) (k : Nat) (hk : k < 4096) :
    ((List.range 4096).map f).getD k 0 = f k := by
  simp [List.getD_eq_getElem?_getD, List.getElem?_map, List.getElem?_range, hk]

/-- The big-endian magic word of a freshly read block. -/
theorem u32be_map_range (f : Nat → Nat) :
    u32be ((List.range 4096).map f)
      = f 0 * 16777216 + f 1 * 65536 + f 2 * 256 + f 3 := by
  rw [u32be, getD_map_range f 0 (by norm_num), getD_map_range f 1 (by norm_num),
    getD_map_range f 2 (by norm_num), getD_map_range f 3 (by norm_num)]

/-- Mounting a device whose block 0 does not start with the big-endian
magic `0x53465342` aborts: `SuperBlock::parse`'s `assert_eq!` fails, and
nothing catches the panic in `SFS::open`. -/
theorem open_aborts_of_bad_magic (d : Disk) (n : Nat) (h0 : 0 < n)
    (hm : u32be ((List.range 4096).map (d 0)) ≠ 0x53465342) :
    SFS.open d n = .panicked := by
  have hread : readBlock d n 0 = some ((List.range 4096).map (d 0)) := by
    simp [readBlock, h0]
  have hlen : ((List.range 4096).map (d 0)).length = 4096 := by simp
  have hparse : SuperBlock.parse ((List.range 4096).map (d 0)) = none := by
    simp [SuperBlock.parse, hlen, SuperBlock.new, hm]
  simp only [SFS.open, hread, hparse]

/-- The per-line loop of `read_dir` panics whenever some line has an
unparsable first fragment or lacks a colon while nonempty, whatever the
accumulator. -/
theorem parseDirLines_panicked_of_mem (l : List Nat)
    (hbad : parseU32 (l.takeWhile (fun c => c != 58)) = none ∨
      (l ≠ [] ∧ l.contains 58 = false)) :
    ∀ (ls : List (List Nat)) (acc : List (List Nat × Nat)), l ∈ ls →
      parseDirLines ls acc = .panicked := by
  intro ls
  induction ls with
  | nil => intro acc h; exact absurd h (List.not_mem_nil l)
  | cons hd tl ih =>
    intro acc hmem
    simp only [parseDirLines]
    split
    · rfl
    · rename_i v hp
      split
      · rename_i hc
        rcases List.mem_cons.mp hmem with heq | hmem2
        · subst heq
          rcases hbad with hb | ⟨_, hb2⟩
          · rw [hb] at hp; cases hp
          · rw [hb2] at hc; cases hc
        · exact ih _ hmem2
      · rfl

/-! ## Claim theorems -/

/-- C1: the claim states that after `SFS::create` on a fresh 64-block
device, a successful `open_file("/foo", CREATE)` leaves a consistent
durable state (IN1, IN3, BM2) with block 0 still holding the superblock.
The code violates this: `create` puts the magic byte `0x42` at offset 0 of
block 0, the `open_file(CREATE)` call succeeds with inumber 1, but the
data-block allocator yields bitmap index 0 and `write_dir` uses it as an
absolute block number, so byte 0 of block 0 becomes `0x31` (the `1` of
the directory entry), data-bitmap bit 0 is reserved while every pointer
of both live inodes is 0 (no live record cites the reserved block,
violating BM2 and losing the superblock). -/
theorem sfs_C1_create_clobbers_superblock :
    fsAfterCreate.disk 0 0 = 66 ∧
    (open_file fsAfterCreate true [fooBytes] .CREATE).inumOf = some 1 ∧
    fsAfterFoo.disk 0 0 = 49 ∧
    fsAfterFoo.data_map.get 0 = some AllocState.Used ∧
    (fsAfterFoo.inodes.nodes 0).map Inode.blocks
      = some (List.replicate 15 0) ∧
    (fsAfterFoo.inodes.nodes 1).map Inode.blocks
      = some (List.replicate 15 0) := by
  refine ⟨by decide, by decide, by decide, by decide, by decide, by decide⟩

/-- C2: the claim states that after `open_file("/foo", CREATE)` returns
inumber 1 on a fresh filesystem, a subsequent `open_file("/foo", RO)`
with no intervening mutations returns the same inumber 1.  The code
violates this: the first call returns 1, but the second fails
`DoesNotExist`, because `read_file` only gathers pointers greater than
`inodes_count + 3 = 83` (and the parent's pointer array is all zeros
anyway), so the directory entry written to disk is never seen again. -/
theorem sfs_C2_reopen_after_create_fails :
    (open_file fsAfterCreate true [fooBytes] .CREATE).inumOf = some 1 ∧
    (open_file fsAfterFoo true [fooBytes] .RO).errOf
      = some SFSError.DoesNotExist := by
  refine ⟨by decide, by decide⟩

/-- C3: the claim states that `set_reserved(i)` / `set_free(i)` set and
clear exactly bit `i`, idempotently, affecting no other index.  The code
violates the no-other-index part for `set_free`: its mask is
`0b00 << inner_offset = 0`, so storing `word & mask` zeroes the whole
64-bit word.  Concretely, with bits 0 and 1 both reserved, `get(1)` is
`Used`, yet after `set_free(0)` both `get(0)` and `get(1)` are `Free`. -/
theorem bitmap_C3_set_free_clears_neighbor_bit :
    (((Bitmap.new.set_reserved 0).bind (fun b => b.set_reserved 1)).bind
      (fun b => b.get 1)) = some AllocState.Used ∧
    (((Bitmap.new.set_reserved 0).bind (fun b => b.set_reserved 1)).bind
      (fun b => (b.set_free 0).bind (fun b2 => b2.get 0)))
      = some AllocState.Free ∧
    (((Bitmap.new.set_reserved 0).bind (fun b => b.set_reserved 1)).bind
      (fun b => (b.set_free 0).bind (fun b2 => b2.get 1)))
      = some AllocState.Free := by
  refine ⟨by decide, by decide, by decide⟩

/-- C4: the claim states that both `write_dir` and `read_file` treat as
owned exactly the pointers with value at least 8, in particular a pointer
equal to 8.  The code violates this: `write_dir` filters `block > 8` and
`read_file` filters `block > inodes_count + 3` (= 83), so an inode whose
first pointer is exactly 8 owns no blocks under either filter, while the
spec-side definition owns `[8]`. -/
theorem fs_C4_pointer_eight_excluded_from_owned :
    ownedBlocksWriteDir inode8 = [] ∧
    ownedBlocksReadFile FsSuperBlock.default inode8 = [] ∧
    ownedBlocksSpec inode8 = [8] ∧
    8 ∈ inode8.blocks := by
  refine ⟨by decide, by decide, by decide, by decide⟩

/-- C5: the claim states that `read_file(inum)` for an inode whose owned
blocks (pointers in `[8, 63]`) are in device range returns a byte vector
of length `|owned| * 4096`.  The code violates this: with `inode8`
(owned = `[8]`, so the claim demands 1 * 4096 = 4096 bytes) present at
inumber 1, `read_file` returns the empty vector, because its filter
`block > 83` discards the pointer 8 (and had any pointer passed the
filter, the `vec![0; allocated_blocks.len()]` buffer would make the
first 4096-byte slice panic). -/
theorem fs_C5_read_file_returns_empty_for_owned_block :
    read_file fsWithInode8 1 = .ok [] ∧
    (ownedBlocksSpec inode8).length * 4096 = 4096 := by
  refine ⟨by decide, by decide⟩

/-- C6: the claim states that `open_file(path, CREATE)` creates a missing
component only when it is the last one, and fails `DoesNotExist` creating
nothing when an intermediate component is missing.  The code violates
this: on a fresh filesystem, `open_file("/a/b", CREATE)` hits the missing
intermediate component `a`, immediately allocates inode 1 for it (as a
regular file, mode `0x2000`), links it into the root directory and
returns `Ok(1)` without ever looking at `b`. -/
theorem fs_C6_create_at_intermediate_component :
    (open_file fsAfterCreate true [[97], [98]] .CREATE).inumOf = some 1 ∧
    (fsAfterAB.inodes.nodes 1).map Inode.mode = some 0x2000 := by
  refine ⟨by decide, by decide⟩

/-- C7 (counterexample): the claim states that a
`NextAvailableAllocation` yields no index more than once per instance
provided the caller reserves each yielded index before the next call.
On the bitmap with bits 0 and 1 reserved (and cap 4) the instance yields
index 2 and then yields index 2 again: the iterator scans its own
by-value snapshot of the bitmap (which a caller-side `set_reserved`
cannot alter) and its marker advances only from 0 to 1, so the second
scan starts at 1 and finds the Free bit 2 once more. -/
theorem naa_C7_counterexample_repeated_yield :
    (NextAvailableAllocation.new bmTwoUsed (some 4)).next
      = some (2, { marker := 1, bitmap := bmTwoUsed, cap := 4 }) ∧
    ({ marker := 1, bitmap := bmTwoUsed, cap := 4 } :
        NextAvailableAllocation).next
      = some (2, { marker := 2, bitmap := bmTwoUsed, cap := 4 }) :=
  ⟨rfl, rfl⟩

/-- C7 (amended): every yield of `NextAvailableAllocation::next` lies in
`[marker, cap)` and its bit is `Free` in the iterator's snapshot of the
bitmap taken at construction; `next` never mutates that snapshot and
advances the marker by exactly one, so caller-side reservations do not
reach the iterator and an index can be yielded repeatedly.  (The bound
`cap ≤ 32767` keeps every probed index inside the domain of the
source's asserted `Bitmap::get`.) -/
theorem naa_C7_amended_yields_free_in_snapshot
    (a : NextAvailableAllocation) (i : Nat) (a' : NextAvailableAllocation)
    (_hcap : a.cap ≤ 32767)
    (h : a.next = some (i, a')) :
    a.marker ≤ i ∧ i < a.cap ∧ a.bitmap.get i = some AllocState.Free ∧
      a'.bitmap = a.bitmap ∧ a'.cap = a.cap ∧ a'.marker = a.marker + 1 := by
  unfold NextAvailableAllocation.next at h
  cases hs : scanFree a.bitmap a.cap a.marker with
  | none => rw [hs] at h; cases h
  | some k =>
    rw [hs] at h
    have h2 := scanFree_spec a.bitmap a.cap a.marker k hs
    have h3 := Option.some.inj h
    obtain ⟨hik, ha'⟩ : k = i ∧ a' = { a with marker := a.marker + 1 } :=
      ⟨congrArg Prod.fst h3, (congrArg Prod.snd h3).symm⟩
    subst hik
    subst ha'
    exact ⟨h2.1, h2.2.1, h2.2.2, rfl, rfl, rfl⟩

/-- Witness for C7: the amended theorem applied to the iterator over a
fresh bitmap with cap 4, whose first yield is index 0. -/
theorem naa_C7_witness :
    (NextAvailableAllocation.new Bitmap.new (some 4)).cap ≤ 32767 ∧
    (NextAvailableAllocation.new Bitmap.new (some 4)).next
      = some (0, { marker := 1, bitmap := Bitmap.new, cap := 4 }) ∧
    ((NextAvailableAllocation.new Bitmap.new (some 4)).marker ≤ 0 ∧
      0 < (NextAvailableAllocation.new Bitmap.new (some 4)).cap ∧
      (NextAvailableAllocation.new Bitmap.new (some 4)).bitmap.get 0
        = some AllocState.Free ∧
      ({ marker := 1, bitmap := Bitmap.new, cap := 4 } :
          NextAvailableAllocation).bitmap
        = (NextAvailableAllocation.new Bitmap.new (some 4)).bitmap ∧
      ({ marker := 1, bitmap := Bitmap.new, cap := 4 } :
          NextAvailableAllocation).cap
        = (NextAvailableAllocation.new Bitmap.new (some 4)).cap ∧
      ({ marker := 1, bitmap := Bitmap.new, cap := 4 } :
          NextAvailableAllocation).marker
        = (NextAvailableAllocation.new Bitmap.new (some 4)).marker + 1) :=
  ⟨by decide, rfl,
   naa_C7_amended_yields_free_in_snapshot
     (NextAvailableAllocation.new Bitmap.new (some 4)) 0
     { marker := 1, bitmap := Bitmap.new, cap := 4 } (by decide) rfl⟩

/-- C8 (counterexample): the claim states that `open` on a zeroed
container returns the error `InvalidBlock` to the caller.  The code
aborts instead: `SuperBlock::parse` checks the magic with `assert_eq!`,
so mounting panics and no `SFSError` is returned. -/
theorem sfs_C8_counterexample_open_zeroed_aborts :
    SFS.open zeroDisk 64 = .panicked ∧
    (SFS.open zeroDisk 64).errOf = none := by
  have h : SFS.open zeroDisk 64 = .panicked := by
    refine open_aborts_of_bad_magic zeroDisk 64 (by norm_num) ?_
    rw [u32be_map_range]
    simp [zeroDisk]
  exact ⟨h, by rw [h]; rfl⟩

/-- C8 (amended): `open` on a container of at least one block whose
block 0 does not start with the big-endian magic `0x53465342` - in
particular a zeroed container - aborts with the magic-assert panic of
`SuperBlock::parse` rather than returning `InvalidBlock` (or any other
`SFSError`). -/
theorem sfs_C8_amended_open_bad_magic_aborts (d : Disk) (n : Nat)
    (h0 : 0 < n)
    (hm : u32be ((List.range 4096).map (d 0)) ≠ 0x53465342) :
    SFS.open d n = .panicked :=
  open_aborts_of_bad_magic d n h0 hm

/-- Witness for C8: the amended theorem applied to the zeroed 64-block
container, whose block 0 starts with the word 0. -/
theorem sfs_C8_witness :
    0 < 64 ∧
    u32be ((List.range 4096).map (zeroDisk 0)) ≠ 0x53465342 ∧
    SFS.open zeroDisk 64 = .panicked :=
  ⟨by norm_num,
   by rw [u32be_map_range]; simp [zeroDisk],
   sfs_C8_amended_open_bad_magic_aborts zeroDisk 64 (by norm_num)
     (by rw [u32be_map_range]; simp [zeroDisk])⟩

/-- C9: the claim states that `serialize_block(d)` for `d ∈ [0, 5)`
places every present inode with inumber in `[d*16, (d+1)*16)` at slot
`(inumber mod 16) * 256` of the returned block.  The code violates this
for every `d ≥ 1`: the `BTreeMap::range(offset..NODES_PER_BLOCK)` upper
bound is the constant 16, so for `d = 1` the range `16..16` is empty and
the present inode 16 is dropped (the block comes back all zeros even
though the inode's slot-0 image has byte 1 equal to 32, the high byte of
mode `0x2000`), and for `d = 2` the range `32..16` makes
`BTreeMap::range` panic. -/
theorem nodeRs_C9_serialize_block_drops_second_block :
    NodeRs.serialize_block nodeRsPair 1 = some (List.replicate 4096 0) ∧
    NodeRs.serialize_block nodeRsPair 2 = none ∧
    (inodeBytes Inode.fileDefault).getD 1 0 = 32 ∧
    (List.replicate 4096 (0 : Nat)).getD 1 0 = 0 := by
  refine ⟨rfl, rfl, by decide, by decide⟩

/-- C10: a directory payload that is not valid UTF-8, or one of whose
lines is nonempty without a `:` separator, or has a first `:`-fragment
that does not parse as `u32`, makes the parsing stage of `read_dir`
abort with a panic (an `unwrap` failure) instead of returning an
`SFSError`. -/
theorem fs_C10_malformed_directory_payload_panics (content : List Nat)
    (hbad : validUtf8 content = false ∨
      (∃ l, l ∈ linesOf content ∧ l ≠ [] ∧ l.contains 58 = false) ∨
      (∃ l, l ∈ linesOf content ∧
        parseU32 (l.takeWhile (fun c => c != 58)) = none)) :
    parse_dir_content content = .panicked := by
  rcases hbad with hu | ⟨l, hmem, hne, hc⟩ | ⟨l, hmem, hp⟩
  · simp [parse_dir_content, hu]
  · by_cases hv : validUtf8 content
    · simp only [parse_dir_content, hv, if_true]
      exact parseDirLines_panicked_of_mem l (Or.inr ⟨hne, hc⟩) _ _ hmem
    · simp [parse_dir_content, hv]
  · by_cases hv : validUtf8 content
    · simp only [parse_dir_content, hv, if_true]
      exact parseDirLines_panicked_of_mem l (Or.inl hp) _ _ hmem
    · simp [parse_dir_content, hv]

/-- Witness for C10: the single byte `0xFF` is not valid UTF-8 and the
parsing stage panics on it. -/
theorem fs_C10_witness :
    (validUtf8 [255] = false ∨
      (∃ l, l ∈ linesOf [255] ∧ l ≠ [] ∧ l.contains 58 = false) ∨
      (∃ l, l ∈ linesOf [255] ∧
        parseU32 (l.takeWhile (fun c => c != 58)) = none)) ∧
    parse_dir_content [255] = .panicked :=
  ⟨Or.inl (by decide),
   fs_C10_malformed_directory_payload_panics [255] (Or.inl (by decide))⟩

end SimpleFS
